import Mathlib

/-!
# SceneManager.cpp: texture registry, material registry and transform composer

A shallow embedding of `Source/SceneManager.cpp`.  The methods of the C++ class
`SceneManager` become functions on a record holding the members of the class.
`GLfloat` values are elements of an arbitrary field `F` (exact arithmetic).
A result `none` stands for an execution without a defined result: an access past
the end of the `m_textureIDs` array, a dereference of a null `m_pShaderManager`, or
a loop that used up its fuel.
-/

/-! ## glm vectors and matrices -/

/-- The glm type `vec2`. -/
structure vec2 (F : Type) where
  x : F
  y : F

/-- The glm type `vec3`. -/
structure vec3 (F : Type) where
  x : F
  y : F
  z : F

/-- The glm type `vec4`. -/
structure vec4 (F : Type) where
  x : F
  y : F
  z : F
  w : F

/-- The glm type `mat4`: four columns, `m[c]` is column `c` and `m[c][r]` its row `r`. -/
structure mat4 (F : Type) where
  c0 : vec4 F
  c1 : vec4 F
  c2 : vec4 F
  c3 : vec4 F

namespace vec4

variable {F : Type} [Field F]

/-- Componentwise sum of two `vec4`, glm's `operator+`. -/
def add (a b : vec4 F) : vec4 F := ⟨a.x + b.x, a.y + b.y, a.z + b.z, a.w + b.w⟩

/-- Product of a `vec4` with a scalar, glm's `operator*`. -/
def smul (a : vec4 F) (k : F) : vec4 F := ⟨a.x * k, a.y * k, a.z * k, a.w * k⟩

end vec4

/-- The scalar functions that the transform code reaches through glm: `cos`, `sin`,
`inversesqrt` (used by `normalize`) and the constant by which `glm::radians`
multiplies a number of degrees (the library's value for pi/180). -/
structure ScalarMath (F : Type) where
  cos : F → F
  sin : F → F
  inversesqrt : F → F
  degToRad : F

namespace glm

variable {F : Type} [Field F]

/-- The product of two `mat4`, glm's `operator*`: column `j` of the result is
`m1[0] * m2[j][0] + m1[1] * m2[j][1] + m1[2] * m2[j][2] + m1[3] * m2[j][3]`. -/
def mul (m1 m2 : mat4 F) : mat4 F :=
  let col (b : vec4 F) : vec4 F :=
    (((m1.c0.smul b.x).add (m1.c1.smul b.y)).add (m1.c2.smul b.z)).add (m1.c3.smul b.w)
  ⟨col m2.c0, col m2.c1, col m2.c2, col m2.c3⟩

instance : Mul (mat4 F) := ⟨mul⟩

/-- The function `glm::radians`. -/
def radians (M : ScalarMath F) (degrees : F) : F := degrees * M.degToRad

/-- The function `glm::dot` on `vec3`. -/
def dot (a b : vec3 F) : F := a.x * b.x + a.y * b.y + a.z * b.z

/-- The function `glm::normalize` on `vec3`: `v * inversesqrt(dot(v, v))`. -/
def normalize (M : ScalarMath F) (v : vec3 F) : vec3 F :=
  let k := M.inversesqrt (dot v v)
  ⟨v.x * k, v.y * k, v.z * k⟩

/-- The function `glm::scale(v)` of `glm/gtx/transform.hpp`: the identity matrix with
its first three columns multiplied by `v.x`, `v.y` and `v.z`. -/
def scale (v : vec3 F) : mat4 F :=
  ⟨⟨v.x, 0, 0, 0⟩, ⟨0, v.y, 0, 0⟩, ⟨0, 0, v.z, 0⟩, ⟨0, 0, 0, 1⟩⟩

/-- The function `glm::translate(v)` of `glm/gtx/transform.hpp`: the identity matrix
with `(v, 1)` as its last column. -/
def translate (v : vec3 F) : mat4 F :=
  ⟨⟨1, 0, 0, 0⟩, ⟨0, 1, 0, 0⟩, ⟨0, 0, 1, 0⟩, ⟨v.x, v.y, v.z, 1⟩⟩

/-- The function `glm::rotate(angle, v)` of `glm/gtx/transform.hpp`: the rotation by
`angle` radians about the normalized axis `v`, entry `Rotate[c][r]` as in glm. -/
def rotate (M : ScalarMath F) (angle : F) (v : vec3 F) : mat4 F :=
  let c := M.cos angle
  let s := M.sin angle
  let axis := normalize M v
  let temp : vec3 F := ⟨(1 - c) * axis.x, (1 - c) * axis.y, (1 - c) * axis.z⟩
  ⟨⟨c + temp.x * axis.x, temp.x * axis.y + s * axis.z, temp.x * axis.z - s * axis.y, 0⟩,
   ⟨temp.y * axis.x - s * axis.z, c + temp.y * axis.y, temp.y * axis.z + s * axis.x, 0⟩,
   ⟨temp.z * axis.x + s * axis.y, temp.z * axis.y - s * axis.x, c + temp.z * axis.z, 0⟩,
   ⟨0, 0, 0, 1⟩⟩

end glm

/-- The mathematical matrix of a `mat4`: entry `(r, c)` is `m[c][r]`. -/
def mat4.toMatrix {F : Type} (m : mat4 F) : Matrix (Fin 4) (Fin 4) F :=
  !![m.c0.x, m.c1.x, m.c2.x, m.c3.x;
     m.c0.y, m.c1.y, m.c2.y, m.c3.y;
     m.c0.z, m.c1.z, m.c2.z, m.c3.z;
     m.c0.w, m.c1.w, m.c2.w, m.c3.w]

/-! ## The transform matrices in the words of the specification -/

namespace Spec

variable {F : Type} [Field F]

/-- Translation by `p` in homogeneous coordinates. -/
def Translation (p : vec3 F) : Matrix (Fin 4) (Fin 4) F :=
  !![1, 0, 0, p.x;
     0, 1, 0, p.y;
     0, 0, 1, p.z;
     0, 0, 0, 1]

/-- Scaling by `s.x`, `s.y`, `s.z` along the three axes. -/
def Scale (s : vec3 F) : Matrix (Fin 4) (Fin 4) F :=
  !![s.x, 0, 0, 0;
     0, s.y, 0, 0;
     0, 0, s.z, 0;
     0, 0, 0, 1]

/-- Rotation about the X axis by `deg` degrees. -/
def RotationX (M : ScalarMath F) (deg : F) : Matrix (Fin 4) (Fin 4) F :=
  !![1, 0, 0, 0;
     0, M.cos (deg * M.degToRad), -M.sin (deg * M.degToRad), 0;
     0, M.sin (deg * M.degToRad), M.cos (deg * M.degToRad), 0;
     0, 0, 0, 1]

/-- Rotation about the Y axis by `deg` degrees. -/
def RotationY (M : ScalarMath F) (deg : F) : Matrix (Fin 4) (Fin 4) F :=
  !![M.cos (deg * M.degToRad), 0, M.sin (deg * M.degToRad), 0;
     0, 1, 0, 0;
     -M.sin (deg * M.degToRad), 0, M.cos (deg * M.degToRad), 0;
     0, 0, 0, 1]

/-- Rotation about the Z axis by `deg` degrees. -/
def RotationZ (M : ScalarMath F) (deg : F) : Matrix (Fin 4) (Fin 4) F :=
  !![M.cos (deg * M.degToRad), -M.sin (deg * M.degToRad), 0, 0;
     M.sin (deg * M.degToRad), M.cos (deg * M.degToRad), 0, 0;
     0, 0, 1, 0;
     0, 0, 0, 1]

end Spec

/-! ## Collaborators: shader manager, mesh library, OpenGL texture units -/

/-- A value stored in a shader uniform, by the setter that stored it. -/
inductive UniformValue (F : Type) where
  | mat4Value (m : mat4 F)
  | vec2Value (v : vec2 F)
  | vec3Value (v : vec3 F)
  | vec4Value (v : vec4 F)
  | floatValue (x : F)
  | intValue (i : Int)
  | boolValue (b : Bool)
  | sampler2DValue (slot : Int)

/-- Modelled from the spec: the class `ShaderManager` (shader collaborator, not among
the sources), as the table of the values last stored under each uniform name. -/
structure ShaderManager (F : Type) where
  uniforms : String → Option (UniformValue F)

namespace ShaderManager

variable {F : Type}

/-- Stores `v` under the uniform `name`. -/
def set (sh : ShaderManager F) (name : String) (v : UniformValue F) : ShaderManager F :=
  ⟨fun n => if n = name then some v else sh.uniforms n⟩

/-- Modelled from the spec: the setter `setMat4Value(name, matrix)`. -/
def setMat4Value (sh : ShaderManager F) (name : String) (m : mat4 F) : ShaderManager F :=
  sh.set name (.mat4Value m)

/-- Modelled from the spec: the setter `setVec3Value(name, value)`. -/
def setVec3Value (sh : ShaderManager F) (name : String) (v : vec3 F) : ShaderManager F :=
  sh.set name (.vec3Value v)

/-- Modelled from the spec: the setter `setFloatValue(name, value)`. -/
def setFloatValue (sh : ShaderManager F) (name : String) (x : F) : ShaderManager F :=
  sh.set name (.floatValue x)

/-- Modelled from the spec: the setter `setIntValue(name, value)`. -/
def setIntValue (sh : ShaderManager F) (name : String) (i : Int) : ShaderManager F :=
  sh.set name (.intValue i)

/-- Modelled from the spec: the setter `setBoolValue(name, value)`. -/
def setBoolValue (sh : ShaderManager F) (name : String) (b : Bool) : ShaderManager F :=
  sh.set name (.boolValue b)

/-- Modelled from the spec: the setter `setSampler2DValue(name, slot)`. -/
def setSampler2DValue (sh : ShaderManager F) (name : String) (slot : Int) :
    ShaderManager F :=
  sh.set name (.sampler2DValue slot)

end ShaderManager

/-- The primitive kinds of the mesh library. -/
inductive MeshKind where
  | plane | box | prism | sphere | cylinder
deriving DecidableEq

/-- Modelled from the spec: the class `ShapeMeshes` (mesh-library collaborator, not
among the sources), as the meshes loaded so far and the draw calls issued so far. -/
structure ShapeMeshes where
  loaded : List MeshKind
  drawn : List MeshKind

/-- Modelled from the spec: `LoadPlaneMesh()`, `LoadBoxMesh()`, ... of `ShapeMeshes`. -/
def ShapeMeshes.LoadMesh (b : ShapeMeshes) (k : MeshKind) : ShapeMeshes :=
  { b with loaded := b.loaded ++ [k] }

/-- Modelled from the spec: `DrawPlaneMesh()`, `DrawBoxMesh()`, ... of `ShapeMeshes`. -/
def ShapeMeshes.DrawMesh (b : ShapeMeshes) (k : MeshKind) : ShapeMeshes :=
  { b with drawn := b.drawn ++ [k] }

/-- The texture units of the OpenGL context: the unit selected by `glActiveTexture`
(`GL_TEXTURE0 + i` is unit `i`) and the texture bound to `GL_TEXTURE_2D` on each unit. -/
structure GLState where
  activeTexture : Nat
  boundTexture2D : Nat → Nat

/-- The call `glActiveTexture(GL_TEXTURE0 + i)`. -/
def glActiveTexture (gl : GLState) (i : Nat) : GLState :=
  { gl with activeTexture := i }

/-- The call `glBindTexture(GL_TEXTURE_2D, id)`: binds `id` on the active unit. -/
def glBindTexture2D (gl : GLState) (id : Nat) : GLState :=
  { gl with boundTexture2D := fun u => if u = gl.activeTexture then id else gl.boundTexture2D u }

/-! ## Materials -/

/-- Modelled from the spec: the struct `OBJECT_MATERIAL` of `SceneManager.h`, with the
members that `DefineObjectMaterials` assigns. -/
structure OBJECT_MATERIAL (F : Type) where
  ambientColor : vec3 F
  ambientStrength : F
  diffuseColor : vec3 F
  specularColor : vec3 F
  shininess : F
  tag : String

/-! ## The class `SceneManager` -/

/-- Modelled from the spec: the number of slots of the array `m_textureIDs`, which is
declared in `SceneManager.h` (not among the sources); the spec and the comments of
`BindGLTextures` and `LoadSceneTextures` give 16. -/
def MAX_TEXTURES : Nat := 16

/-- Modelled from the spec: the struct `TEXTURE_INFO` of `SceneManager.h`, one slot of
`m_textureIDs`, with the two members that `CreateGLTexture` assigns. -/
structure TEXTURE_INFO where
  ID : Nat
  tag : String
deriving DecidableEq

/-- What `stbi_load` reports for an image it could decode. -/
structure Image where
  width : Int
  height : Int
  colorChannels : Int
deriving DecidableEq

/-- The data members of the class `SceneManager`.  `m_pShaderManager` is `none` for a
null pointer.  `m_textureIDs` is the fixed array of texture slots and
`m_loadedTextures` (an `int` that only ever counts up) the number of slots in use;
the two proof fields are the representation invariant of the array: it has
`MAX_TEXTURES` slots and the counter does not run past them. -/
structure SceneManager (F : Type) where
  m_pShaderManager : Option (ShaderManager F)
  m_basicMeshes : ShapeMeshes
  m_textureIDs : List TEXTURE_INFO
  m_loadedTextures : Nat
  m_objectMaterials : List (OBJECT_MATERIAL F)
  size_eq : m_textureIDs.length = MAX_TEXTURES
  loaded_le : m_loadedTextures ≤ MAX_TEXTURES

/-- The string constant `g_ModelName`. -/
def g_ModelName : String := "model"

/-- The string constant `g_TextureValueName`. -/
def g_TextureValueName : String := "objectTexture"

/-- The string constant `g_UseTextureName`. -/
def g_UseTextureName : String := "bUseTexture"

namespace SceneManager

variable {F : Type}

/-- The method `CreateGLTexture`.  `image` is what `stbi_load(filename, ...)` returned
(`none` for a null pointer) and `textureID` the name that `glGenTextures` produced.
The write to `m_textureIDs[m_loadedTextures]` has no defined result when all slots
are in use. -/
def CreateGLTexture (s : SceneManager F) (image : Option Image) (textureID : Nat)
    (tag : String) : Option (Bool × SceneManager F) :=
  match image with
  | some img =>
    if img.colorChannels = 3 ∨ img.colorChannels = 4 then
      if h : s.m_loadedTextures < MAX_TEXTURES then
        some (true,
          { s with
            m_textureIDs := s.m_textureIDs.set s.m_loadedTextures ⟨textureID, tag⟩
            m_loadedTextures := s.m_loadedTextures + 1
            size_eq := by rw [List.length_set]; exact s.size_eq
            loaded_le := h })
      else none
    else some (false, s)
  | none => some (false, s)

/-- The `for (int i = 0; i < m_loadedTextures; i++)` loop of `BindGLTextures`;
`fuel` bounds the number of times the loop condition is tested. -/
def BindGLTextures.loop (s : SceneManager F) : Nat → Nat → GLState → Option GLState
  | 0, _, _ => none
  | fuel + 1, i, gl =>
    if i < s.m_loadedTextures then
      match s.m_textureIDs[i]? with
      | none => none
      | some e => BindGLTextures.loop s fuel (i + 1) (glBindTexture2D (glActiveTexture gl i) e.ID)
    else some gl

/-- The method `BindGLTextures`.  The loop condition is tested `m_loadedTextures + 1`
times. -/
def BindGLTextures (s : SceneManager F) (gl : GLState) : Option GLState :=
  BindGLTextures.loop s (s.m_loadedTextures + 1) 0 gl

/-- The `while ((index < m_loadedTextures) && (bFound == false))` loop of
`FindTextureSlot`, with the locals `index`, `textureSlot` and `bFound` as arguments;
`fuel` bounds the number of times the loop condition is tested. -/
def FindTextureSlot.loop (s : SceneManager F) (tag : String) :
    Nat → Nat → Int → Bool → Option Int
  | 0, _, _, _ => none
  | fuel + 1, index, textureSlot, bFound =>
    if index < s.m_loadedTextures ∧ bFound = false then
      match s.m_textureIDs[index]? with
      | none => none
      | some e =>
        if e.tag = tag then FindTextureSlot.loop s tag fuel index (index : Int) true
        else FindTextureSlot.loop s tag fuel (index + 1) textureSlot bFound
    else some textureSlot

/-- The method `FindTextureSlot`: `textureSlot = -1`, `index = 0`, `bFound = false`,
then the loop.  The loop condition is tested at most `m_loadedTextures + 1` times. -/
def FindTextureSlot (s : SceneManager F) (tag : String) : Option Int :=
  FindTextureSlot.loop s tag (s.m_loadedTextures + 1) 0 (-1) false

/-- The `while ((index < m_objectMaterials.size()) && (bFound == false))` loop of
`FindMaterial`, with the locals `index` and `bFound` and the output parameter
`material` as arguments; `fuel` bounds the number of times the loop condition is
tested.  The result is the output parameter when the loop ends. -/
def FindMaterial.loop (s : SceneManager F) (tag : String) :
    Nat → Nat → Bool → OBJECT_MATERIAL F → Option (OBJECT_MATERIAL F)
  | 0, _, _, _ => none
  | fuel + 1, index, bFound, material =>
    if index < s.m_objectMaterials.length ∧ bFound = false then
      match s.m_objectMaterials[index]? with
      | none => none
      | some m =>
        if m.tag = tag then
          FindMaterial.loop s tag fuel index true
            { material with
              ambientColor := m.ambientColor
              ambientStrength := m.ambientStrength
              diffuseColor := m.diffuseColor
              specularColor := m.specularColor
              shininess := m.shininess }
        else FindMaterial.loop s tag fuel (index + 1) bFound material
    else some material

/-- The method `FindMaterial`: the returned flag and the output parameter `material`
after the call.  The loop condition is tested at most `size() + 1` times. -/
def FindMaterial (s : SceneManager F) (tag : String) (material : OBJECT_MATERIAL F) :
    Option (Bool × OBJECT_MATERIAL F) :=
  if s.m_objectMaterials.length = 0 then some (false, material)
  else
    match FindMaterial.loop s tag (s.m_objectMaterials.length + 1) 0 false material with
    | none => none
    | some out => some (true, out)

section Transform

variable [Field F]

/-- The matrix `modelView` that `SetTransformations` computes. -/
def modelView (M : ScalarMath F) (scaleXYZ : vec3 F)
    (XrotationDegrees YrotationDegrees ZrotationDegrees : F) (positionXYZ : vec3 F) :
    mat4 F :=
  let scale := glm.scale scaleXYZ
  let rotationX := glm.rotate M (glm.radians M XrotationDegrees) ⟨1, 0, 0⟩
  let rotationY := glm.rotate M (glm.radians M YrotationDegrees) ⟨0, 1, 0⟩
  let rotationZ := glm.rotate M (glm.radians M ZrotationDegrees) ⟨0, 0, 1⟩
  let translation := glm.translate positionXYZ
  translation * rotationX * rotationY * rotationZ * scale

/-- The method `SetTransformations`. -/
def SetTransformations (s : SceneManager F) (M : ScalarMath F) (scaleXYZ : vec3 F)
    (XrotationDegrees YrotationDegrees ZrotationDegrees : F) (positionXYZ : vec3 F) :
    SceneManager F :=
  match s.m_pShaderManager with
  | some sh =>
    { s with
      m_pShaderManager := some (sh.setMat4Value g_ModelName
        (modelView M scaleXYZ XrotationDegrees YrotationDegrees ZrotationDegrees
          positionXYZ)) }
  | none => s

end Transform

/-- The method `SetShaderTexture`. -/
def SetShaderTexture (s : SceneManager F) (textureTag : String) :
    Option (SceneManager F) :=
  match s.m_pShaderManager with
  | some sh =>
    match s.FindTextureSlot textureTag with
    | none => none
    | some textureID =>
      some { s with
        m_pShaderManager := some
          ((sh.setIntValue g_UseTextureName 1).setSampler2DValue g_TextureValueName
            textureID) }
  | none => some s

/-- The method `SetShaderMaterial`.  `uninit` is the content of the local `material`
before `FindMaterial` is called (the local is not initialised).  The dereference of
`m_pShaderManager` has no defined result for a null pointer. -/
def SetShaderMaterial (s : SceneManager F) (uninit : OBJECT_MATERIAL F)
    (materialTag : String) : Option (SceneManager F) :=
  if s.m_objectMaterials.length > 0 then
    match s.FindMaterial materialTag uninit with
    | none => none
    | some (bReturn, material) =>
      if bReturn = true then
        match s.m_pShaderManager with
        | none => none
        | some sh =>
          some { s with
            m_pShaderManager := some
              (((((sh.setVec3Value "material.ambientColor" material.ambientColor).setFloatValue
                "material.ambientStrength" material.ambientStrength).setVec3Value
                "material.diffuseColor" material.diffuseColor).setVec3Value
                "material.specularColor" material.specularColor).setFloatValue
                "material.shininess" material.shininess) }
      else some s
  else some s

/-- The method `LoadSceneTextures`.  `stbi_load` gives, for a file name, what the
image loader returns for it, and `glGenTextures k` the texture name generated in the
`k`-th call of `CreateGLTexture`; `gl` is the state of the texture units. -/
def LoadSceneTextures (s : SceneManager F) (stbi_load : String → Option Image)
    (glGenTextures : Nat → Nat) (gl : GLState) : Option (SceneManager F × GLState) := do
  let r ← s.CreateGLTexture (stbi_load "resources/textures/ExerciseTape.jpg")
    (glGenTextures 0) "Ball"
  let r ← r.2.CreateGLTexture (stbi_load "resources/textures/Glass.jpg")
    (glGenTextures 1) "Glass"
  let r ← r.2.CreateGLTexture (stbi_load "resources/textures/BrownPlastic.jpg")
    (glGenTextures 2) "BrownPlastic"
  let r ← r.2.CreateGLTexture (stbi_load "resources/textures/GreenScreen.jpg")
    (glGenTextures 3) "GreenScreen"
  let r ← r.2.CreateGLTexture (stbi_load "resources/textures/Book.jpg")
    (glGenTextures 4) "Book"
  let r ← r.2.CreateGLTexture (stbi_load "resources/textures/RedPlasticTop.jpg")
    (glGenTextures 5) "RedTop"
  let gl ← r.2.BindGLTextures gl
  pure (r.2, gl)

section Scene

variable [Field F]

/-- The six materials that `DefineObjectMaterials` pushes, in order: `baseMaterial`,
`tapeMaterial`, `plasticMaterial`, `redTopMaterial`, `screenMaterial`,
`BookMaterial`. -/
def DefineObjectMaterials.materials : List (OBJECT_MATERIAL F) :=
  [ { ambientColor := ⟨0.1, 0.1, 0.1⟩
      ambientStrength := 0.4
      diffuseColor := ⟨0.1, 0.1, 0.1⟩
      specularColor := ⟨0.0, 0.0, 0.0⟩
      shininess := 0.0
      tag := "Base" },
    { ambientColor := ⟨0.2, 0.2, 0.1⟩
      ambientStrength := 0.4
      diffuseColor := ⟨0.3, 0.3, 0.2⟩
      specularColor := ⟨0.6, 0.5, 0.4⟩
      shininess := 0.0
      tag := "Tape" },
    { ambientColor := ⟨0.259, 0.18, 0.027⟩
      ambientStrength := 0.4
      diffuseColor := ⟨0.522, 0.369, 0.059⟩
      specularColor := ⟨0.6, 0.5, 0.4⟩
      shininess := 3.0
      tag := "Plastic" },
    { ambientColor := ⟨0.259, 0.18, 0.027⟩
      ambientStrength := 0.4
      diffuseColor := ⟨0.522, 0.369, 0.059⟩
      specularColor := ⟨0.6, 0.5, 0.4⟩
      shininess := 3.0
      tag := "Red" },
    { ambientColor := ⟨0.2, 0.2, 0.2⟩
      ambientStrength := 0.4
      diffuseColor := ⟨0.2, 0.2, 0.2⟩
      specularColor := ⟨0.6, 0.5, 0.4⟩
      shininess := 1.0
      tag := "Screen" },
    { ambientColor := ⟨0.2, 0.2, 0.1⟩
      ambientStrength := 0.4
      diffuseColor := ⟨0.3, 0.3, 0.2⟩
      specularColor := ⟨0.6, 0.5, 0.4⟩
      shininess := 0.0
      tag := "BookFace" } ]

/-- The method `DefineObjectMaterials`: six `push_back` calls on `m_objectMaterials`. -/
def DefineObjectMaterials (s : SceneManager F) : SceneManager F :=
  { s with m_objectMaterials := s.m_objectMaterials ++ DefineObjectMaterials.materials }

/-- The method `SetupSceneLights`.  The dereference of `m_pShaderManager` has no
defined result for a null pointer. -/
def SetupSceneLights (s : SceneManager F) : Option (SceneManager F) :=
  match s.m_pShaderManager with
  | none => none
  | some sh =>
    some { s with
      m_pShaderManager := some
        (((((((sh.setVec3Value "lightSources[0].position" ⟨0.0, 5.0, 0.0⟩).setVec3Value
          "lightSources[0].ambientColor" ⟨0.4, 0.4, 0.4⟩).setVec3Value
          "lightSources[0].diffuseColor" ⟨0.4, 0.4, 0.4⟩).setVec3Value
          "lightSources[0].specularColor" ⟨0.4, 0.4, 0.4⟩).setFloatValue
          "lightSources[0].focalStrength" 16.0).setFloatValue
          "lightSources[0].specularIntensity" 0.75).setBoolValue "bUseLighting" true) }

/-- The method `PrepareScene`. -/
def PrepareScene (s : SceneManager F) (stbi_load : String → Option Image)
    (glGenTextures : Nat → Nat) (gl : GLState) : Option (SceneManager F × GLState) := do
  let r ← s.LoadSceneTextures stbi_load glGenTextures gl
  let s ← (DefineObjectMaterials r.1).SetupSceneLights
  pure
    ({ s with
       m_basicMeshes :=
         ((((s.m_basicMeshes.LoadMesh .plane).LoadMesh .box).LoadMesh .prism).LoadMesh
           .sphere).LoadMesh .cylinder },
     r.2)

/-- One block of `RenderScene`: the values assigned to `scaleXYZ`, the three rotation
variables and `positionXYZ`, the tags passed to `SetShaderTexture` and
`SetShaderMaterial`, and the mesh drawn. -/
structure SceneObject (F : Type) where
  scaleXYZ : vec3 F
  XrotationDegrees : F
  YrotationDegrees : F
  ZrotationDegrees : F
  positionXYZ : vec3 F
  textureTag : String
  materialTag : String
  mesh : MeshKind

/-- The eight blocks of `RenderScene`, in order: plane, clock box, clock prism, clock
screen, exercise ball, book, jar base, jar top. -/
def RenderScene.objects : List (SceneObject F) :=
  [ ⟨⟨20.0, 1.0, 10.0⟩, 0.0, 0.0, 0.0, ⟨0.0, 0.0, 0.0⟩, "Glass", "Base", .plane⟩,
    ⟨⟨6.0, 2.0, 2.0⟩, 0.0, 0.0, 0.0, ⟨0.0, 1.0, 5.0⟩, "BrownPlastic", "Plastic", .box⟩,
    ⟨⟨1.2, 6.0, 1.9⟩, -105.0, 0.0, 90.0, ⟨0.0, 1.10, 6.25⟩, "BrownPlastic", "Plastic",
      .prism⟩,
    ⟨⟨3.0, 1.5, 0.5⟩, 60.0, 0.0, 0.0, ⟨0.0, 1.10, 6.25⟩, "GreenScreen", "Screen", .box⟩,
    ⟨⟨2.0, 2.0, 2.0⟩, 0.0, 0.0, 0.0, ⟨-1.0, 2.0, 1.0⟩, "Ball", "Tape", .sphere⟩,
    ⟨⟨7.0, 7.0, 2.0⟩, 90.0, 0.0, 0.0, ⟨6.0, 1.0, 0.0⟩, "Book", "BookFace", .box⟩,
    ⟨⟨2.0, 3.0, 2.0⟩, 0.0, 0.0, 0.0, ⟨-6.5, 0.0, 0.0⟩, "BrownPlastic", "Plastic",
      .cylinder⟩,
    ⟨⟨2.0, 1.0, 2.0⟩, 0.0, 0.0, 0.0, ⟨-6.5, 3.0, 0.0⟩, "RedTop", "Plastic", .cylinder⟩ ]

/-- One block of `RenderScene`: `SetTransformations`, `SetShaderTexture`,
`SetShaderMaterial`, then the draw call of the mesh. -/
def RenderScene.block (M : ScalarMath F) (uninit : OBJECT_MATERIAL F) (s : SceneManager F)
    (o : SceneObject F) : Option (SceneManager F) := do
  let s ← (s.SetTransformations M o.scaleXYZ o.XrotationDegrees o.YrotationDegrees
    o.ZrotationDegrees o.positionXYZ).SetShaderTexture o.textureTag
  let s ← s.SetShaderMaterial uninit o.materialTag
  pure { s with m_basicMeshes := s.m_basicMeshes.DrawMesh o.mesh }

/-- The method `RenderScene`: its eight blocks in order. -/
def RenderScene (s : SceneManager F) (M : ScalarMath F) (uninit : OBJECT_MATERIAL F) :
    Option (SceneManager F) :=
  RenderScene.objects.foldlM (RenderScene.block M uninit) s

end Scene

end SceneManager

/-- A scene manager with no texture loaded, no material defined and no mesh loaded;
every array slot holds `e`. -/
def SceneManager.fresh {F : Type} (sh : Option (ShaderManager F)) (e : TEXTURE_INFO) :
    SceneManager F :=
  { m_pShaderManager := sh
    m_basicMeshes := ⟨[], []⟩
    m_textureIDs := List.replicate MAX_TEXTURES e
    m_loadedTextures := 0
    m_objectMaterials := []
    size_eq := List.length_replicate _ _
    loaded_le := Nat.zero_le _ }

/-- The tag held by slot `i` of `m_textureIDs` (`none` past the end of the array). -/
def SceneManager.slotTag {F : Type} (s : SceneManager F) (i : Nat) : Option String :=
  (s.m_textureIDs[i]?).map TEXTURE_INFO.tag

/-- Slot `i` is in use (below the registered count) and its entry carries `tag`. -/
abbrev SceneManager.RegisteredAt {F : Type} (s : SceneManager F) (i : Nat) (tag : String) :
    Prop :=
  i < s.m_loadedTextures ∧ s.slotTag i = some tag

/-- A sequence of `CreateGLTexture` calls, each given with the image its file decodes
to, the generated texture name and the tag; the result holds the flag each call
returned. -/
def SceneManager.loadSequence {F : Type} :
    SceneManager F → List (Option Image × Nat × String) → Option (List Bool × SceneManager F)
  | s, [] => some ([], s)
  | s, (image, textureID, tag) :: rest =>
    match s.CreateGLTexture image textureID tag with
    | none => none
    | some (bReturn, s1) =>
      match SceneManager.loadSequence s1 rest with
      | none => none
      | some (flags, s2) => some (bReturn :: flags, s2)

/-- The texture name held by slot `i` of `m_textureIDs` (0 past the end of the array). -/
def SceneManager.slotID {F : Type} (s : SceneManager F) (i : Nat) : Nat :=
  ((s.m_textureIDs[i]?).map TEXTURE_INFO.ID).getD 0

/-- The six file names that `LoadSceneTextures` passes to `CreateGLTexture`. -/
def SceneManager.LoadSceneTextures.files : List String :=
  [ "resources/textures/ExerciseTape.jpg", "resources/textures/Glass.jpg",
    "resources/textures/BrownPlastic.jpg", "resources/textures/GreenScreen.jpg",
    "resources/textures/Book.jpg", "resources/textures/RedPlasticTop.jpg" ]

/-- A registry in which the one slot in use holds the tag "Ball". -/
def SceneManager.oneBall : SceneManager ℚ :=
  { SceneManager.fresh none ⟨0, ""⟩ with
    m_textureIDs := ⟨7, "Ball"⟩ :: List.replicate 15 ⟨0, ""⟩
    m_loadedTextures := 1
    size_eq := by decide
    loaded_le := by decide }

/-- A registry in which all sixteen slots are in use, with tags "t0" .. "t15". -/
def SceneManager.fullRegistry : SceneManager ℚ :=
  { SceneManager.fresh none ⟨0, ""⟩ with
    m_textureIDs := (List.range 16).map (fun i => ⟨i + 1, "t" ++ toString i⟩)
    m_loadedTextures := 16
    size_eq := by decide
    loaded_le := by decide }

/-- A material whose values are all zero and whose tag is empty. -/
def OBJECT_MATERIAL.zero : OBJECT_MATERIAL ℚ :=
  ⟨⟨0, 0, 0⟩, 0, ⟨0, 0, 0⟩, ⟨0, 0, 0⟩, 0, ""⟩

/-- The scene manager after `DefineObjectMaterials` on a fresh one. -/
def SceneManager.sceneMaterials : SceneManager ℚ :=
  (SceneManager.fresh none ⟨0, ""⟩).DefineObjectMaterials

/-- A material with the values 1 .. 11, standing for whatever the uninitialised local
`material` of `SetShaderMaterial` happens to hold. -/
def OBJECT_MATERIAL.stale : OBJECT_MATERIAL ℚ :=
  ⟨⟨1, 2, 3⟩, 4, ⟨5, 6, 7⟩, ⟨8, 9, 10⟩, 11, ""⟩

/-- The scene manager after `DefineObjectMaterials` on a fresh one whose shader
manager holds no uniform yet. -/
def SceneManager.sceneWithShader : SceneManager ℚ :=
  (SceneManager.fresh (some ⟨fun _ => none⟩) ⟨0, ""⟩).DefineObjectMaterials

/-! ## Lemmas on the texture registry -/

namespace SceneManager

variable {F : Type}

theorem getElem?_of_lt_loaded (s : SceneManager F) {i : Nat} (h : i < s.m_loadedTextures) :
    ∃ e, s.m_textureIDs[i]? = some e := by
  have hlen : i < s.m_textureIDs.length := by
    rw [s.size_eq]; exact Nat.lt_of_lt_of_le h s.loaded_le
  exact ⟨s.m_textureIDs[i], List.getElem?_eq_getElem hlen⟩

theorem FindTextureSlot_loop_miss (s : SceneManager F) (tag : String) (slot : Int) :
    ∀ (fuel index : Nat),
      (∀ i, index ≤ i → ¬ s.RegisteredAt i tag) →
      s.m_loadedTextures - index < fuel →
      FindTextureSlot.loop s tag fuel index slot false = some slot := by
  intro fuel
  induction fuel with
  | zero => intro index _ h; omega
  | succ fuel ih =>
    intro index hno hfuel
    by_cases hlt : index < s.m_loadedTextures
    · obtain ⟨e, he⟩ := s.getElem?_of_lt_loaded hlt
      have hne : e.tag ≠ tag := by
        intro h
        exact hno index (Nat.le_refl _) ⟨hlt, by simp [slotTag, he, h]⟩
      simp only [FindTextureSlot.loop, hlt, and_self, if_true, he, hne, if_false]
      exact ih (index + 1) (fun i hi => hno i (by omega)) (by omega)
    · simp [FindTextureSlot.loop, hlt]

theorem FindTextureSlot_loop_hit (s : SceneManager F) (tag : String) (j : Nat)
    (hj : s.RegisteredAt j tag) :
    ∀ (fuel index : Nat) (slot : Int),
      index ≤ j →
      (∀ i, index ≤ i → i < j → ¬ s.RegisteredAt i tag) →
      j - index + 1 < fuel →
      FindTextureSlot.loop s tag fuel index slot false = some (j : Int) := by
  intro fuel
  induction fuel with
  | zero => intro index _ _ _ h; omega
  | succ fuel ih =>
    intro index slot hle hno hfuel
    have hlt : index < s.m_loadedTextures := Nat.lt_of_le_of_lt hle hj.1
    obtain ⟨e, he⟩ := s.getElem?_of_lt_loaded hlt
    by_cases hij : index = j
    · subst hij
      have het : e.tag = tag := by
        have := hj.2
        simpa [slotTag, he] using this
      cases fuel with
      | zero => omega
      | succ fuel =>
        simp [FindTextureSlot.loop, hlt, he, het]
    · have hne : e.tag ≠ tag := by
        intro h
        exact hno index (Nat.le_refl _) (by omega) ⟨hlt, by simp [slotTag, he, h]⟩
      simp only [FindTextureSlot.loop, hlt, and_self, if_true, he, hne, if_false]
      exact ih (index + 1) slot (by omega) (fun i hi hi2 => hno i (by omega) hi2) (by omega)

/-- No slot in use carries `tag`: `FindTextureSlot` returns the sentinel. -/
theorem FindTextureSlot_miss (s : SceneManager F) (tag : String)
    (hno : ∀ i, ¬ s.RegisteredAt i tag) : s.FindTextureSlot tag = some (-1) :=
  FindTextureSlot_loop_miss s tag (-1) _ 0 (fun i _ => hno i) (by omega)

/-- Slot `j` is the first slot in use that carries `tag`: `FindTextureSlot` returns `j`. -/
theorem FindTextureSlot_hit (s : SceneManager F) (tag : String) (j : Nat)
    (hj : s.RegisteredAt j tag) (hno : ∀ i, i < j → ¬ s.RegisteredAt i tag) :
    s.FindTextureSlot tag = some (j : Int) :=
  FindTextureSlot_loop_hit s tag j hj _ 0 (-1) (Nat.zero_le _) (fun i _ h => hno i h)
    (by have := hj.1; omega)

/-- A result of `FindTextureSlot` that is not negative is the first slot in use that
carries the tag. -/
theorem FindTextureSlot_eq_some_nonneg (s : SceneManager F) (tag : String) (k : Int)
    (h : s.FindTextureSlot tag = some k) (hk : 0 ≤ k) :
    ∃ j : Nat, k = (j : Int) ∧ s.RegisteredAt j tag ∧ ∀ i, i < j → ¬ s.RegisteredAt i tag := by
  by_cases hex : ∃ i, s.RegisteredAt i tag
  · have hj := Nat.find_spec hex
    have hmin : ∀ i, i < Nat.find hex → ¬ s.RegisteredAt i tag :=
      fun i hi => Nat.find_min hex hi
    rw [FindTextureSlot_hit s tag _ hj hmin] at h
    exact ⟨Nat.find hex, (Option.some.inj h).symm, hj, hmin⟩
  · rw [FindTextureSlot_miss s tag (fun i hi => hex ⟨i, hi⟩)] at h
    have : k = -1 := (Option.some.inj h).symm
    omega

end SceneManager

namespace SceneManager

variable {F : Type}

/-- What a successful `CreateGLTexture` did: the counter was below the array size, the
new entry went to the slot the counter pointed at, and the counter moved on by one. -/
theorem CreateGLTexture_eq_true (s s1 : SceneManager F) (image : Option Image)
    (textureID : Nat) (tag : String)
    (h : s.CreateGLTexture image textureID tag = some (true, s1)) :
    s.m_loadedTextures < MAX_TEXTURES ∧
      s1.m_loadedTextures = s.m_loadedTextures + 1 ∧
      s1.m_textureIDs = s.m_textureIDs.set s.m_loadedTextures ⟨textureID, tag⟩ ∧
      s1.m_objectMaterials = s.m_objectMaterials ∧
      s1.m_pShaderManager = s.m_pShaderManager ∧
      s1.m_basicMeshes = s.m_basicMeshes := by
  unfold CreateGLTexture at h
  cases image with
  | none => simp at h
  | some img =>
    simp only at h
    split at h
    · split at h
      · next hlt =>
        simp only [Option.some.injEq, Prod.mk.injEq, true_and] at h
        subst h
        exact ⟨hlt, rfl, rfl, rfl, rfl, rfl⟩
      · simp at h
    · simp at h

/-- A load of a 3- or 4-channel image into a registry with a free slot succeeds. -/
theorem CreateGLTexture_success (s : SceneManager F) (img : Image) (textureID : Nat)
    (tag : String) (hch : img.colorChannels = 3 ∨ img.colorChannels = 4)
    (hcap : s.m_loadedTextures < MAX_TEXTURES) :
    ∃ s1, s.CreateGLTexture (some img) textureID tag = some (true, s1) := by
  simp [CreateGLTexture, hch, hcap]

theorem slotTag_set_self (s s1 : SceneManager F) (e : TEXTURE_INFO)
    (hlt : s.m_loadedTextures < MAX_TEXTURES)
    (harr : s1.m_textureIDs = s.m_textureIDs.set s.m_loadedTextures e) :
    s1.slotTag s.m_loadedTextures = some e.tag := by
  have hlen : s.m_loadedTextures < s.m_textureIDs.length := by rw [s.size_eq]; exact hlt
  simp [slotTag, harr, List.getElem?_set_self hlen]

theorem slotTag_set_ne (s s1 : SceneManager F) (e : TEXTURE_INFO) (i : Nat)
    (hne : i ≠ s.m_loadedTextures)
    (harr : s1.m_textureIDs = s.m_textureIDs.set s.m_loadedTextures e) :
    s1.slotTag i = s.slotTag i := by
  simp [slotTag, harr, List.getElem?_set_ne (Ne.symm hne)]

/-- After a sequence of loads that all returned success, the counter has advanced by
the number of loads, the slots below the old counter are as before, and the `k`-th
load sits in the `k`-th slot from the old counter on. -/
theorem loadSequence_slots :
    ∀ (loads : List (Option Image × Nat × String)) (s s2 : SceneManager F)
      (flags : List Bool),
      s.loadSequence loads = some (flags, s2) → (∀ b ∈ flags, b = true) →
      s2.m_loadedTextures = s.m_loadedTextures + loads.length ∧
        (∀ i, i < s.m_loadedTextures → s2.slotTag i = s.slotTag i) ∧
        (∀ k l, loads[k]? = some l → s2.slotTag (s.m_loadedTextures + k) = some l.2.2) := by
  intro loads
  induction loads with
  | nil =>
    intro s s2 flags h _
    simp only [loadSequence, Option.some.injEq, Prod.mk.injEq] at h
    obtain ⟨_, rfl⟩ := h
    simp
  | cons l rest ih =>
    intro s s2 flags h hok
    obtain ⟨image, textureID, tag⟩ := l
    simp only [loadSequence] at h
    cases hc : s.CreateGLTexture image textureID tag with
    | none => simp [hc] at h
    | some r =>
      obtain ⟨b, s1⟩ := r
      simp only [hc] at h
      cases hr : s1.loadSequence rest with
      | none => simp [hr] at h
      | some r2 =>
        obtain ⟨fl, s3⟩ := r2
        simp only [hr, Option.some.injEq, Prod.mk.injEq] at h
        obtain ⟨hfl, rfl⟩ := h
        subst hfl
        have hb : b = true := hok b (by simp)
        subst hb
        obtain ⟨hlt, hcnt, harr, -⟩ := CreateGLTexture_eq_true s s1 image textureID tag hc
        obtain ⟨h1, h2, h3⟩ := ih s1 s3 fl hr (fun b hb => hok b (by simp [hb]))
        refine ⟨by simp [h1, hcnt]; omega, ?_, ?_⟩
        · intro i hi
          rw [h2 i (by omega)]
          exact slotTag_set_ne s s1 _ i (by omega) harr
        · intro k l hl
          cases k with
          | zero =>
            simp only [List.getElem?_cons_zero, Option.some.injEq] at hl
            subst hl
            rw [Nat.add_zero, h2 _ (by omega)]
            exact slotTag_set_self s s1 _ hlt harr
          | succ k =>
            simp only [List.getElem?_cons_succ] at hl
            have := h3 k l hl
            rw [hcnt] at this
            have e : s.m_loadedTextures + (k + 1) = s.m_loadedTextures + 1 + k := by omega
            rw [e]; exact this

end SceneManager

/-! ## Lemmas on the material list -/

namespace SceneManager

variable {F : Type}

theorem FindMaterial_loop_miss (s : SceneManager F) (tag : String)
    (material : OBJECT_MATERIAL F) :
    ∀ (fuel index : Nat),
      (∀ i m, index ≤ i → s.m_objectMaterials[i]? = some m → m.tag ≠ tag) →
      s.m_objectMaterials.length - index < fuel →
      FindMaterial.loop s tag fuel index false material = some material := by
  intro fuel
  induction fuel with
  | zero => intro index _ h; omega
  | succ fuel ih =>
    intro index hno hfuel
    by_cases hlt : index < s.m_objectMaterials.length
    · have he := List.getElem?_eq_getElem hlt
      have hne := hno index _ (Nat.le_refl _) he
      simp only [FindMaterial.loop, hlt, and_self, if_true, he, hne, if_false]
      exact ih (index + 1) (fun i m hi => hno i m (by omega)) (by omega)
    · simp [FindMaterial.loop, hlt]

theorem FindMaterial_loop_hit (s : SceneManager F) (tag : String)
    (material : OBJECT_MATERIAL F) (j : Nat) (m : OBJECT_MATERIAL F)
    (hj : s.m_objectMaterials[j]? = some m) (ht : m.tag = tag) :
    ∀ (fuel index : Nat),
      index ≤ j →
      (∀ i m1, index ≤ i → i < j → s.m_objectMaterials[i]? = some m1 → m1.tag ≠ tag) →
      j - index + 1 < fuel →
      FindMaterial.loop s tag fuel index false material =
        some { material with
               ambientColor := m.ambientColor
               ambientStrength := m.ambientStrength
               diffuseColor := m.diffuseColor
               specularColor := m.specularColor
               shininess := m.shininess } := by
  intro fuel
  induction fuel with
  | zero => intro index _ _ h; omega
  | succ fuel ih =>
    intro index hle hno hfuel
    have hjlt : j < s.m_objectMaterials.length := (List.getElem?_eq_some_iff.mp hj).1
    have hlt : index < s.m_objectMaterials.length := by omega
    by_cases hij : index = j
    · subst hij
      cases fuel with
      | zero => omega
      | succ fuel => simp [FindMaterial.loop, hlt, hj, ht]
    · have he := List.getElem?_eq_getElem hlt
      have hne := hno index _ (Nat.le_refl _) (by omega) he
      simp only [FindMaterial.loop, hlt, and_self, if_true, he, hne, if_false]
      exact ih (index + 1) (by omega) (fun i m1 hi hi2 => hno i m1 (by omega) hi2) (by omega)

/-- On a non-empty material list that holds no material with the tag, `FindMaterial`
returns true and leaves the output parameter as it was. -/
theorem FindMaterial_miss (s : SceneManager F) (tag : String)
    (material : OBJECT_MATERIAL F) (hne : s.m_objectMaterials ≠ [])
    (hno : ∀ m ∈ s.m_objectMaterials, m.tag ≠ tag) :
    s.FindMaterial tag material = some (true, material) := by
  have hlen : s.m_objectMaterials.length ≠ 0 := by
    intro h; exact hne (List.length_eq_zero.mp h)
  have := FindMaterial_loop_miss s tag material (s.m_objectMaterials.length + 1) 0
    (fun i m _ hm => hno m (List.getElem?_mem hm)) (by omega)
  simp [FindMaterial, hlen, this]

/-- When the material at index `j` is the first one with the tag, `FindMaterial`
returns true and copies its five values into the output parameter. -/
theorem FindMaterial_hit (s : SceneManager F) (tag : String)
    (material : OBJECT_MATERIAL F) (j : Nat) (m : OBJECT_MATERIAL F)
    (hj : s.m_objectMaterials[j]? = some m) (ht : m.tag = tag)
    (hno : ∀ i m1, i < j → s.m_objectMaterials[i]? = some m1 → m1.tag ≠ tag) :
    s.FindMaterial tag material =
      some (true,
        { material with
          ambientColor := m.ambientColor
          ambientStrength := m.ambientStrength
          diffuseColor := m.diffuseColor
          specularColor := m.specularColor
          shininess := m.shininess }) := by
  have hjlt : j < s.m_objectMaterials.length := (List.getElem?_eq_some_iff.mp hj).1
  have hlen : s.m_objectMaterials.length ≠ 0 := by omega
  have := FindMaterial_loop_hit s tag material j m hj ht (s.m_objectMaterials.length + 1) 0
    (Nat.zero_le _) (fun i m1 _ hi => hno i m1 hi) (by omega)
  simp [FindMaterial, hlen, this]

/-- On a non-empty material list `FindMaterial` returns true, whatever the tag. -/
theorem FindMaterial_nonempty (s : SceneManager F) (tag : String)
    (material : OBJECT_MATERIAL F) (hne : s.m_objectMaterials ≠ []) :
    ∃ out, s.FindMaterial tag material = some (true, out) := by
  by_cases hex : ∃ i : Nat, ∃ m : OBJECT_MATERIAL F,
      s.m_objectMaterials[i]? = some m ∧ m.tag = tag
  · classical
    obtain ⟨m, hm, ht⟩ := Nat.find_spec hex
    exact ⟨_, FindMaterial_hit s tag material _ m hm ht
      (fun j m1 hj hj1 ht1 => Nat.find_min hex hj ⟨m1, hj1, ht1⟩)⟩
  · refine ⟨material, FindMaterial_miss s tag material hne ?_⟩
    intro m hm ht
    obtain ⟨i, hi⟩ := List.getElem?_of_mem hm
    exact hex ⟨i, m, hi, ht⟩

end SceneManager

/-! ## Lemmas on the texture units -/

namespace SceneManager

variable {F : Type}

/-- The state in which the loop of `BindGLTextures` ends when it is entered with
counter `i`: units `i` .. count-1 hold the texture names of their slots. -/
theorem BindGLTextures_loop_eq (s : SceneManager F) :
    ∀ (fuel i : Nat) (gl : GLState), s.m_loadedTextures - i < fuel →
      BindGLTextures.loop s fuel i gl =
        some ⟨if i < s.m_loadedTextures then s.m_loadedTextures - 1 else gl.activeTexture,
          fun u =>
            if i ≤ u ∧ u < s.m_loadedTextures then s.slotID u else gl.boundTexture2D u⟩ := by
  intro fuel
  induction fuel with
  | zero => intro i gl h; omega
  | succ fuel ih =>
    intro i gl hfuel
    by_cases hlt : i < s.m_loadedTextures
    · obtain ⟨e, he⟩ := s.getElem?_of_lt_loaded hlt
      simp only [BindGLTextures.loop, hlt, if_true, he]
      rw [ih (i + 1) _ (by omega)]
      simp only [Option.some.injEq, GLState.mk.injEq]
      constructor
      · simp only [glBindTexture2D, glActiveTexture]
        split <;> omega
      · funext u
        simp only [glBindTexture2D, glActiveTexture]
        by_cases hu : u = i
        · subst hu
          simp [hlt, slotID, he]
        · by_cases h1 : i + 1 ≤ u ∧ u < s.m_loadedTextures
          · have h2 : i ≤ u ∧ u < s.m_loadedTextures := ⟨by omega, h1.2⟩
            simp [h1, h2]
          · have h2 : ¬ (i ≤ u ∧ u < s.m_loadedTextures) := by
              intro h; exact h1 ⟨by omega, h.2⟩
            simp [h1, h2, hu]
    · simp [BindGLTextures.loop, hlt]
      have : ∀ u, ¬ (i ≤ u ∧ u < s.m_loadedTextures) := fun u h => by omega
      simp [this]

end SceneManager

/-! ## Lemmas on the transform matrices -/

section TransformLemmas

variable {F : Type} [Field F]

/-- The glm product of two `mat4` is the product of their matrices. -/
theorem mat4.toMatrix_mul (a b : mat4 F) : (a * b).toMatrix = a.toMatrix * b.toMatrix := by
  ext i j
  fin_cases i <;> fin_cases j <;>
    simp [mat4.toMatrix, HMul.hMul, Mul.mul, glm.mul, vec4.add, vec4.smul, Matrix.mul_apply,
      Fin.sum_univ_four] <;> ring

theorem glm.toMatrix_scale (v : vec3 F) : (glm.scale v).toMatrix = Spec.Scale v := rfl

theorem glm.toMatrix_translate (v : vec3 F) :
    (glm.translate v).toMatrix = Spec.Translation v := rfl

theorem glm.toMatrix_rotate_x (M : ScalarMath F) (hM : M.inversesqrt 1 = 1) (deg : F) :
    (glm.rotate M (glm.radians M deg) ⟨1, 0, 0⟩).toMatrix = Spec.RotationX M deg := by
  simp [glm.rotate, glm.normalize, glm.dot, glm.radians, hM, mat4.toMatrix, Spec.RotationX]

theorem glm.toMatrix_rotate_y (M : ScalarMath F) (hM : M.inversesqrt 1 = 1) (deg : F) :
    (glm.rotate M (glm.radians M deg) ⟨0, 1, 0⟩).toMatrix = Spec.RotationY M deg := by
  simp [glm.rotate, glm.normalize, glm.dot, glm.radians, hM, mat4.toMatrix, Spec.RotationY]

theorem glm.toMatrix_rotate_z (M : ScalarMath F) (hM : M.inversesqrt 1 = 1) (deg : F) :
    (glm.rotate M (glm.radians M deg) ⟨0, 0, 1⟩).toMatrix = Spec.RotationZ M deg := by
  simp [glm.rotate, glm.normalize, glm.dot, glm.radians, hM, mat4.toMatrix, Spec.RotationZ]

/-- The matrix that `SetTransformations` computes is the product of the five
transform matrices, translation leftmost and scale rightmost. -/
theorem SceneManager.modelView_toMatrix (M : ScalarMath F) (hM : M.inversesqrt 1 = 1)
    (scaleXYZ : vec3 F) (x y z : F) (positionXYZ : vec3 F) :
    (SceneManager.modelView M scaleXYZ x y z positionXYZ).toMatrix =
      Spec.Translation positionXYZ * Spec.RotationX M x * Spec.RotationY M y *
        Spec.RotationZ M z * Spec.Scale scaleXYZ := by
  simp only [SceneManager.modelView, mat4.toMatrix_mul, glm.toMatrix_scale,
    glm.toMatrix_translate, glm.toMatrix_rotate_x M hM, glm.toMatrix_rotate_y M hM,
    glm.toMatrix_rotate_z M hM]

/-- A 4x4 matrix applied to a column vector, entry by entry. -/
theorem mulVec_four
    (a00 a01 a02 a03 a10 a11 a12 a13 a20 a21 a22 a23 a30 a31 a32 a33 x y z w : F) :
    (!![a00, a01, a02, a03; a10, a11, a12, a13; a20, a21, a22, a23;
        a30, a31, a32, a33]).mulVec ![x, y, z, w] =
      ![a00 * x + a01 * y + a02 * z + a03 * w, a10 * x + a11 * y + a12 * z + a13 * w,
        a20 * x + a21 * y + a22 * z + a23 * w, a30 * x + a31 * y + a32 * z + a33 * w] := by
  funext i
  fin_cases i <;> simp [Matrix.mulVec, Matrix.dotProduct, Fin.sum_univ_four]

/-- Ninety degrees in radians. -/
theorem real_deg_90 : (90 : ℝ) * (Real.pi / 180) = Real.pi / 2 := by ring

end TransformLemmas

/-! ## Properties of the specification -/

namespace SceneManager

variable {F : Type}

/-- C1, as in the spec, fails in two ways.  Loading the tag "Ball" a second time
succeeds, but `FindTextureSlot "Ball"` then still returns slot 0, which was occupied
before the call, and not the old count 1.  And a load into a registry with all
sixteen slots in use writes past the end of the array: it has no defined result. -/
theorem C1_counterexample :
    (∃ s1, oneBall.CreateGLTexture (some ⟨64, 64, 3⟩) 8 "Ball" = some (true, s1) ∧
        s1.FindTextureSlot "Ball" = some 0 ∧
        s1.FindTextureSlot "Ball" ≠ some (oneBall.m_loadedTextures : Int)) ∧
      fullRegistry.CreateGLTexture (some ⟨64, 64, 3⟩) 17 "New" = none := by
  exact ⟨⟨_, rfl, by decide, by decide⟩, rfl⟩

/-- C1, amended: for every registry with a free slot, every tag that no slot in use
carries and every image decoded with 3 or 4 channels, `CreateGLTexture` returns
true, the count goes up by one, and `FindTextureSlot` of the tag then returns the
count before the call: an index below the new count that no entry occupied. -/
theorem C1_load_then_resolve (s : SceneManager F) (img : Image) (textureID : Nat)
    (tag : String) (hch : img.colorChannels = 3 ∨ img.colorChannels = 4)
    (hcap : s.m_loadedTextures < MAX_TEXTURES) (hfresh : ∀ i, ¬ s.RegisteredAt i tag) :
    ∃ s1, s.CreateGLTexture (some img) textureID tag = some (true, s1) ∧
      s1.m_loadedTextures = s.m_loadedTextures + 1 ∧
      s1.FindTextureSlot tag = some (s.m_loadedTextures : Int) := by
  obtain ⟨s1, h⟩ := CreateGLTexture_success s img textureID tag hch hcap
  obtain ⟨hlt, hcnt, harr, -⟩ := CreateGLTexture_eq_true s s1 _ textureID tag h
  refine ⟨s1, h, hcnt, ?_⟩
  apply FindTextureSlot_hit
  · exact ⟨by omega, slotTag_set_self s s1 _ hlt harr⟩
  · intro i hi hreg
    apply hfresh i
    refine ⟨hi, ?_⟩
    rw [← slotTag_set_ne s s1 _ i (by omega) harr]
    exact hreg.2

/-- C1, amended, at a concrete input: loading "Glass" after "Ball" succeeds and
"Glass" then resolves to slot 1. -/
theorem C1_load_then_resolve_witness :
    ∃ s1, oneBall.CreateGLTexture (some ⟨64, 64, 4⟩) 8 "Glass" = some (true, s1) ∧
      s1.m_loadedTextures = 2 ∧ s1.FindTextureSlot "Glass" = some 1 :=
  C1_load_then_resolve oneBall ⟨64, 64, 4⟩ 8 "Glass" (by decide) (by decide)
    (by
      intro i h
      have h1 : i < 1 := h.1
      have h0 : i = 0 := by omega
      subst h0
      exact absurd h.2 (by decide))

/-- C2: when the image cannot be decoded, or decodes with a channel count other than
3 or 4, `CreateGLTexture` returns false and leaves the scene manager, hence the
count and every slot of the registry, as it was. -/
theorem C2_failed_load_unchanged (s : SceneManager F) (image : Option Image)
    (textureID : Nat) (tag : String)
    (h : ∀ img, image = some img → img.colorChannels ≠ 3 ∧ img.colorChannels ≠ 4) :
    s.CreateGLTexture image textureID tag = some (false, s) := by
  cases image with
  | none => rfl
  | some img =>
    obtain ⟨h3, h4⟩ := h img rfl
    simp [CreateGLTexture, h3, h4]

/-- C2 at concrete inputs: an undecodable file and a 1-channel, a 2-channel and a
5-channel image all leave the registry holding "Ball" as it was. -/
theorem C2_failed_load_unchanged_witness :
    oneBall.CreateGLTexture none 8 "Glass" = some (false, oneBall) ∧
      oneBall.CreateGLTexture (some ⟨64, 64, 1⟩) 8 "Glass" = some (false, oneBall) ∧
      oneBall.CreateGLTexture (some ⟨64, 64, 2⟩) 8 "Glass" = some (false, oneBall) ∧
      oneBall.CreateGLTexture (some ⟨64, 64, 5⟩) 8 "Glass" = some (false, oneBall) :=
  ⟨C2_failed_load_unchanged oneBall none 8 "Glass" (by intro img h; cases h),
   C2_failed_load_unchanged oneBall (some ⟨64, 64, 1⟩) 8 "Glass"
     (by intro img h; cases h; decide),
   C2_failed_load_unchanged oneBall (some ⟨64, 64, 2⟩) 8 "Glass"
     (by intro img h; cases h; decide),
   C2_failed_load_unchanged oneBall (some ⟨64, 64, 5⟩) 8 "Glass"
     (by intro img h; cases h; decide)⟩

/-- C3: `FindTextureSlot` returns a result `r` for every registry and tag; `r` lies
between -1 and count-1; `r` is -1 exactly when no slot in use carries the tag; and
`r` is the index `i` exactly when `i` is the least slot in use that carries the tag.
The method returns only `r`: the registry is not changed. -/
theorem C3_first_match (s : SceneManager F) (tag : String) :
    ∃ r : Int, s.FindTextureSlot tag = some r ∧
      (-1 ≤ r ∧ r ≤ (s.m_loadedTextures : Int) - 1) ∧
      (r = -1 ↔ ∀ i, ¬ s.RegisteredAt i tag) ∧
      (∀ i : Nat, r = (i : Int) ↔
        (s.RegisteredAt i tag ∧ ∀ j, j < i → ¬ s.RegisteredAt j tag)) := by
  by_cases h : ∃ i, s.RegisteredAt i tag
  · have hj := Nat.find_spec h
    have hmin : ∀ i, i < Nat.find h → ¬ s.RegisteredAt i tag := fun i hi => Nat.find_min h hi
    refine ⟨(Nat.find h : Int), FindTextureSlot_hit s tag _ hj hmin, ?_, ?_, ?_⟩
    · have := hj.1
      omega
    · constructor
      · intro h1; omega
      · intro h1; exact absurd hj (h1 _)
    · intro i
      constructor
      · intro hi
        have : Nat.find h = i := by exact_mod_cast hi
        subst this
        exact ⟨hj, hmin⟩
      · rintro ⟨hi, hlow⟩
        have h1 : ¬ i < Nat.find h := fun hlt => hmin i hlt hi
        have h2 : ¬ Nat.find h < i := fun hlt => hlow _ hlt hj
        have : Nat.find h = i := by omega
        exact_mod_cast this
  · have hno : ∀ i, ¬ s.RegisteredAt i tag := fun i hi => h ⟨i, hi⟩
    refine ⟨-1, FindTextureSlot_miss s tag hno, ?_, ?_, ?_⟩
    · omega
    · simp [hno]
    · intro i
      constructor
      · intro hi; omega
      · rintro ⟨hi, -⟩; exact absurd hi (hno i)

/-- C4: after a list of loads with pairwise distinct tags, all of which returned
success, into a registry with count 0, `FindTextureSlot` of the `k`-th tag
(zero-based) returns `k`. -/
theorem C4_units_follow_order (s s2 : SceneManager F)
    (loads : List (Option Image × Nat × String)) (flags : List Bool)
    (h0 : s.m_loadedTextures = 0)
    (hdistinct : (loads.map (fun l => l.2.2)).Nodup)
    (hrun : s.loadSequence loads = some (flags, s2))
    (hok : ∀ b ∈ flags, b = true)
    (k : Nat) (tag : String) (hk : (loads.map (fun l => l.2.2))[k]? = some tag) :
    s2.FindTextureSlot tag = some (k : Int) := by
  obtain ⟨hcnt, -, hslots⟩ := loadSequence_slots loads s s2 flags hrun hok
  rw [h0] at hcnt hslots
  simp only [Nat.zero_add] at hcnt hslots
  have hklt : k < loads.length := by
    have := (List.getElem?_eq_some_iff.mp hk).1
    simpa using this
  have hslot : ∀ j t, (loads.map (fun l => l.2.2))[j]? = some t → s2.slotTag j = some t := by
    intro j t hj
    rw [List.getElem?_map] at hj
    cases hl : loads[j]? with
    | none => simp [hl] at hj
    | some l =>
      simp only [hl, Option.map_some', Option.some.injEq] at hj
      rw [← hj]; exact hslots j l hl
  apply FindTextureSlot_hit
  · exact ⟨by omega, hslot k tag hk⟩
  · intro j hj hreg
    have hjlt : j < (loads.map (fun l => l.2.2)).length := by simp; omega
    have hjt := hslot j _ (List.getElem?_eq_getElem hjlt)
    have heq : (loads.map (fun l => l.2.2))[j]? = (loads.map (fun l => l.2.2))[k]? := by
      rw [List.getElem?_eq_getElem hjlt, hk]
      have := hreg.2
      rw [hjt] at this
      exact this
    have hjk : j = k := by
      have hklt2 : k < (loads.map (fun l => l.2.2)).length := by simp; omega
      rw [List.getElem?_eq_getElem hjlt, List.getElem?_eq_getElem hklt2] at heq
      exact (List.Nodup.getElem_inj_iff hdistinct).mp (Option.some.inj heq)
    omega

/-- C4 at the scenario of the spec: after loading "Ball", then "Glass", then
"BrownPlastic" into a registry with count 0, "Glass" resolves to slot 1. -/
theorem C4_units_follow_order_witness :
    ∃ s2 : SceneManager ℚ,
      (fresh none ⟨0, ""⟩ : SceneManager ℚ).loadSequence
          [(some ⟨64, 64, 3⟩, 1, "Ball"), (some ⟨64, 64, 3⟩, 2, "Glass"),
            (some ⟨64, 64, 4⟩, 3, "BrownPlastic")] = some ([true, true, true], s2) ∧
      s2.FindTextureSlot "Glass" = some 1 :=
  ⟨_, rfl,
    C4_units_follow_order (fresh none ⟨0, ""⟩) _
      [(some ⟨64, 64, 3⟩, 1, "Ball"), (some ⟨64, 64, 3⟩, 2, "Glass"),
        (some ⟨64, 64, 4⟩, 3, "BrownPlastic")] [true, true, true] rfl (by decide) rfl
      (by decide) 1 "Glass" rfl⟩

end SceneManager

namespace SceneManager

variable {F : Type}

/-- C5, the code at a failing input: with the six materials of
`DefineObjectMaterials` registered, `FindMaterial` of the unregistered tag "Glass"
returns true, not false, and leaves the output parameter untouched. -/
theorem C5_missing_tag_returns_true :
    sceneMaterials.FindMaterial "Glass" OBJECT_MATERIAL.zero =
      some (true, OBJECT_MATERIAL.zero) := by
  rfl

/-- C6: when at least one registered material carries the tag, `FindMaterial`
returns true and the output parameter holds the ambient colour, ambient strength,
diffuse colour, specular colour and shininess of the material at the least index
with that tag; its own tag is as before. -/
theorem C6_first_match (s : SceneManager F) (tag : String) (material : OBJECT_MATERIAL F)
    (h : ∃ m ∈ s.m_objectMaterials, m.tag = tag) :
    ∃ (i : Nat) (m out : OBJECT_MATERIAL F),
      s.m_objectMaterials[i]? = some m ∧ m.tag = tag ∧
      (∀ j m1, j < i → s.m_objectMaterials[j]? = some m1 → m1.tag ≠ tag) ∧
      s.FindMaterial tag material = some (true, out) ∧
      out.ambientColor = m.ambientColor ∧ out.ambientStrength = m.ambientStrength ∧
      out.diffuseColor = m.diffuseColor ∧ out.specularColor = m.specularColor ∧
      out.shininess = m.shininess ∧ out.tag = material.tag := by
  have hex : ∃ i : Nat, ∃ m : OBJECT_MATERIAL F, s.m_objectMaterials[i]? = some m ∧ m.tag = tag := by
    obtain ⟨m, hm, ht⟩ := h
    obtain ⟨i, hi⟩ := List.getElem?_of_mem hm
    exact ⟨i, m, hi, ht⟩
  classical
  obtain ⟨m, hm, ht⟩ := Nat.find_spec hex
  have hmin : ∀ j m1, j < Nat.find hex → s.m_objectMaterials[j]? = some m1 → m1.tag ≠ tag :=
    fun j m1 hj hj1 ht1 => Nat.find_min hex hj ⟨m1, hj1, ht1⟩
  exact ⟨Nat.find hex, m, _, hm, ht, hmin, FindMaterial_hit s tag material _ m hm ht hmin,
    rfl, rfl, rfl, rfl, rfl, rfl⟩

/-- C6 at the scenario of the spec: with "Base", "Tape", "Plastic" (and the further
materials) registered in the order of `DefineObjectMaterials`, resolving "Tape" gives
ambient strength 0.4 and shininess 0.0. -/
theorem C6_first_match_witness :
    ∃ out, sceneMaterials.FindMaterial "Tape" OBJECT_MATERIAL.zero = some (true, out) ∧
      out.ambientStrength = 0.4 ∧ out.shininess = 0.0 := by
  obtain ⟨i, m, out, hi, ht, hmin, hF, -, h2, -, -, h5, -⟩ :=
    C6_first_match sceneMaterials "Tape" OBJECT_MATERIAL.zero
      ⟨_, List.mem_cons_of_mem _ (List.mem_cons_self _ _), rfl⟩
  have hi1 : i = 1 := by
    rcases i with _ | _ | i
    · have hm : _ = m := Option.some.inj hi
      subst hm
      exact absurd ht (by decide)
    · rfl
    · exact absurd rfl (hmin 1 _ (by omega) rfl)
  subst hi1
  have hm : _ = m := Option.some.inj hi
  subst hm
  refine ⟨out, hF, ?_, ?_⟩
  · rw [h2]; rfl
  · rw [h5]; rfl

end SceneManager

namespace SceneManager

variable {F : Type}

/-- C7: for every scale vector, rotation angles in degrees and position,
`SetTransformations` stores under the shader uniform "model" the matrix whose value
is Translation(position) x RotationX(xDeg) x RotationY(yDeg) x RotationZ(zDeg) x
Scale(scale), the product taken in this order in exact arithmetic: over any field
whose scalar functions give `inversesqrt 1 = 1`, as the real numbers do. -/
theorem C7_model_matrix [Field F] (M : ScalarMath F) (hM : M.inversesqrt 1 = 1)
    (s : SceneManager F) (sh : ShaderManager F) (hsh : s.m_pShaderManager = some sh)
    (scaleXYZ : vec3 F) (x y z : F) (positionXYZ : vec3 F) :
    ∃ m : mat4 F,
      m.toMatrix =
        Spec.Translation positionXYZ * Spec.RotationX M x * Spec.RotationY M y *
          Spec.RotationZ M z * Spec.Scale scaleXYZ ∧
      (s.SetTransformations M scaleXYZ x y z positionXYZ).m_pShaderManager =
        some (sh.setMat4Value "model" m) ∧
      (sh.setMat4Value "model" m).uniforms "model" = some (.mat4Value m) ∧
      ∀ name, name ≠ "model" → (sh.setMat4Value "model" m).uniforms name = sh.uniforms name := by
  refine ⟨modelView M scaleXYZ x y z positionXYZ,
    modelView_toMatrix M hM scaleXYZ x y z positionXYZ, ?_, ?_, ?_⟩
  · simp [SetTransformations, hsh, g_ModelName]
  · simp [ShaderManager.setMat4Value, ShaderManager.set]
  · intro name hne
    simp [ShaderManager.setMat4Value, ShaderManager.set, hne]

/-- C7 at the scenario of the spec, over the real numbers: with scale (2,1,1),
rotation (0,90,0) degrees and position (0,0,0), the matrix stored under "model" maps
the local X unit vector to (0,0,-2): length 2 along the world Z axis, with zero X and
Y components. -/
theorem C7_model_matrix_witness :
    ∃ m : mat4 ℝ,
      ((fresh (some ⟨fun _ => none⟩) ⟨0, ""⟩ : SceneManager ℝ).SetTransformations
          ⟨Real.cos, Real.sin, fun x => (Real.sqrt x)⁻¹, Real.pi / 180⟩
          ⟨2, 1, 1⟩ 0 90 0 ⟨0, 0, 0⟩).m_pShaderManager =
        some (ShaderManager.setMat4Value ⟨fun _ => none⟩ "model" m) ∧
      m.toMatrix.mulVec ![1, 0, 0, 0] = ![0, 0, -2, 0] := by
  obtain ⟨m, hm, hset, -⟩ :=
    C7_model_matrix ⟨Real.cos, Real.sin, fun x => (Real.sqrt x)⁻¹, Real.pi / 180⟩ (by simp)
      (fresh (some ⟨fun _ => none⟩) ⟨0, ""⟩ : SceneManager ℝ) ⟨fun _ => none⟩ rfl
      ⟨2, 1, 1⟩ 0 90 0 ⟨0, 0, 0⟩
  refine ⟨m, hset, ?_⟩
  rw [hm]
  simp only [← Matrix.mulVec_mulVec, Spec.Translation, Spec.RotationX, Spec.RotationY,
    Spec.RotationZ, Spec.Scale, mulVec_four, real_deg_90]
  simp

/-- C8, as in the spec, fails: over the real numbers, with unit scale, rotation
(90,0,90) degrees and position (0,0,0), the model matrix maps the point (1,0,0) to
(0,0,1), while scaling, then rotating about X, then Y, then Z, then translating
gives (0,1,0). -/
theorem C8_counterexample :
    (modelView ⟨Real.cos, Real.sin, fun x => (Real.sqrt x)⁻¹, Real.pi / 180⟩
        ⟨1, 1, 1⟩ 90 0 90 ⟨0, 0, 0⟩).toMatrix.mulVec ![1, 0, 0, 1] = ![0, 0, 1, 1] ∧
    (Spec.Translation (⟨0, 0, 0⟩ : vec3 ℝ)).mulVec
      ((Spec.RotationZ ⟨Real.cos, Real.sin, fun x => (Real.sqrt x)⁻¹, Real.pi / 180⟩ 90).mulVec
      ((Spec.RotationY ⟨Real.cos, Real.sin, fun x => (Real.sqrt x)⁻¹, Real.pi / 180⟩ 0).mulVec
      ((Spec.RotationX ⟨Real.cos, Real.sin, fun x => (Real.sqrt x)⁻¹, Real.pi / 180⟩ 90).mulVec
      ((Spec.Scale ⟨1, 1, 1⟩).mulVec ![1, 0, 0, 1])))) = ![0, 1, 0, 1] ∧
    (![0, 0, 1, 1] : Fin 4 → ℝ) ≠ ![0, 1, 0, 1] := by
  refine ⟨?_, ?_, ?_⟩
  · rw [modelView_toMatrix _ (by simp)]
    simp only [← Matrix.mulVec_mulVec, Spec.Translation, Spec.RotationX, Spec.RotationY,
      Spec.RotationZ, Spec.Scale, mulVec_four, real_deg_90]
    simp
  · simp only [Spec.Translation, Spec.RotationX, Spec.RotationY, Spec.RotationZ, Spec.Scale,
      mulVec_four, real_deg_90]
    simp
  · intro h
    have := congrFun h 1
    simp at this

/-- C8, amended: for every scale, rotation angles and position and every column
vector `v`, the model matrix applied to `v` scales `v` first, then rotates the result
about Z, then about Y, then about X, and translates last: M v = T(Rx(Ry(Rz(S v)))). -/
theorem C8_application_order [Field F] (M : ScalarMath F) (hM : M.inversesqrt 1 = 1)
    (scaleXYZ : vec3 F) (x y z : F) (positionXYZ : vec3 F) (v : Fin 4 → F) :
    (modelView M scaleXYZ x y z positionXYZ).toMatrix.mulVec v =
      (Spec.Translation positionXYZ).mulVec
        ((Spec.RotationX M x).mulVec
          ((Spec.RotationY M y).mulVec
            ((Spec.RotationZ M z).mulVec ((Spec.Scale scaleXYZ).mulVec v)))) := by
  rw [modelView_toMatrix M hM]
  simp only [← Matrix.mulVec_mulVec]

/-- C8, amended, at a concrete input over the real numbers: with unit scale, rotation
(90,0,90) degrees and position (0,0,0), rotating (1,0,0) about Z, then Y, then X gives
(0,0,1), which is what the model matrix gives. -/
theorem C8_application_order_witness :
    (modelView ⟨Real.cos, Real.sin, fun x => (Real.sqrt x)⁻¹, Real.pi / 180⟩
        ⟨1, 1, 1⟩ 90 0 90 ⟨0, 0, 0⟩).toMatrix.mulVec ![1, 0, 0, 1] = ![0, 0, 1, 1] := by
  rw [C8_application_order ⟨Real.cos, Real.sin, fun x => (Real.sqrt x)⁻¹, Real.pi / 180⟩
    (by simp)]
  simp only [Spec.Translation, Spec.RotationX, Spec.RotationY, Spec.RotationZ, Spec.Scale,
    mulVec_four, real_deg_90]
  simp

/-- C9: for every registry and every state of the texture units, `BindGLTextures`
ends in a state `gl1` in which unit `i` holds the texture name of slot `i` for every
`i` below the count, and running it again from `gl1` ends in `gl1` again. -/
theorem C9_bind_idempotent (s : SceneManager F) (gl : GLState) :
    ∃ gl1, s.BindGLTextures gl = some gl1 ∧ s.BindGLTextures gl1 = some gl1 ∧
      ∀ i, i < s.m_loadedTextures →
        (s.m_textureIDs[i]?).map TEXTURE_INFO.ID = some (gl1.boundTexture2D i) := by
  refine ⟨_, BindGLTextures_loop_eq s _ 0 gl (by omega), ?_, ?_⟩
  · rw [BindGLTextures, BindGLTextures_loop_eq s _ 0 _ (by omega)]
    simp only [Option.some.injEq, GLState.mk.injEq]
    constructor
    · split <;> simp_all
    · funext u
      split <;> simp_all
  · intro i hi
    obtain ⟨e, he⟩ := s.getElem?_of_lt_loaded hi
    simp [hi, slotID, he]

end SceneManager

namespace SceneManager

variable {F : Type}

/-- When the six files decode with 3 or 4 channels and no texture is loaded yet,
`LoadSceneTextures` returns, the count is 6 and the slots 0 .. 5 carry the six tags in
the order of the calls; the other members are as before. -/
theorem LoadSceneTextures_success (s : SceneManager F) (stbi_load : String → Option Image)
    (glGenTextures : Nat → Nat) (gl : GLState) (h0 : s.m_loadedTextures = 0)
    (hload : ∀ f ∈ LoadSceneTextures.files,
      ∃ img, stbi_load f = some img ∧ (img.colorChannels = 3 ∨ img.colorChannels = 4)) :
    ∃ s6 gl1, s.LoadSceneTextures stbi_load glGenTextures gl = some (s6, gl1) ∧
      s6.m_loadedTextures = 6 ∧
      s6.slotTag 0 = some "Ball" ∧ s6.slotTag 1 = some "Glass" ∧
      s6.slotTag 2 = some "BrownPlastic" ∧ s6.slotTag 3 = some "GreenScreen" ∧
      s6.slotTag 4 = some "Book" ∧ s6.slotTag 5 = some "RedTop" ∧
      s6.m_objectMaterials = s.m_objectMaterials ∧
      s6.m_pShaderManager = s.m_pShaderManager ∧ s6.m_basicMeshes = s.m_basicMeshes := by
  obtain ⟨i0, hi0, hc0⟩ := hload "resources/textures/ExerciseTape.jpg"
    (by simp [LoadSceneTextures.files])
  obtain ⟨i1, hi1, hc1⟩ := hload "resources/textures/Glass.jpg"
    (by simp [LoadSceneTextures.files])
  obtain ⟨i2, hi2, hc2⟩ := hload "resources/textures/BrownPlastic.jpg"
    (by simp [LoadSceneTextures.files])
  obtain ⟨i3, hi3, hc3⟩ := hload "resources/textures/GreenScreen.jpg"
    (by simp [LoadSceneTextures.files])
  obtain ⟨i4, hi4, hc4⟩ := hload "resources/textures/Book.jpg"
    (by simp [LoadSceneTextures.files])
  obtain ⟨i5, hi5, hc5⟩ := hload "resources/textures/RedPlasticTop.jpg"
    (by simp [LoadSceneTextures.files])
  have hM : MAX_TEXTURES = 16 := rfl
  obtain ⟨s1, e1⟩ := CreateGLTexture_success s i0 (glGenTextures 0) "Ball" hc0 (by omega)
  obtain ⟨-, c1, a1, m1, p1, b1⟩ := CreateGLTexture_eq_true _ _ _ _ _ e1
  obtain ⟨s2, e2⟩ := CreateGLTexture_success s1 i1 (glGenTextures 1) "Glass" hc1 (by omega)
  obtain ⟨-, c2, a2, m2, p2, b2⟩ := CreateGLTexture_eq_true _ _ _ _ _ e2
  obtain ⟨s3, e3⟩ := CreateGLTexture_success s2 i2 (glGenTextures 2) "BrownPlastic" hc2
    (by omega)
  obtain ⟨-, c3, a3, m3, p3, b3⟩ := CreateGLTexture_eq_true _ _ _ _ _ e3
  obtain ⟨s4, e4⟩ := CreateGLTexture_success s3 i3 (glGenTextures 3) "GreenScreen" hc3
    (by omega)
  obtain ⟨-, c4, a4, m4, p4, b4⟩ := CreateGLTexture_eq_true _ _ _ _ _ e4
  obtain ⟨s5, e5⟩ := CreateGLTexture_success s4 i4 (glGenTextures 4) "Book" hc4 (by omega)
  obtain ⟨-, c5, a5, m5, p5, b5⟩ := CreateGLTexture_eq_true _ _ _ _ _ e5
  obtain ⟨s6, e6⟩ := CreateGLTexture_success s5 i5 (glGenTextures 5) "RedTop" hc5 (by omega)
  obtain ⟨-, c6, a6, m6, p6, b6⟩ := CreateGLTexture_eq_true _ _ _ _ _ e6
  obtain ⟨gl1, hbind⟩ : ∃ gl1, s6.BindGLTextures gl = some gl1 :=
    ⟨_, BindGLTextures_loop_eq s6 (s6.m_loadedTextures + 1) 0 gl (by omega)⟩
  have hlen : s.m_textureIDs.length = 16 := s.size_eq
  refine ⟨s6, gl1, ?_, by omega, ?_, ?_, ?_, ?_, ?_, ?_, by simp [m6, m5, m4, m3, m2, m1],
    by simp [p6, p5, p4, p3, p2, p1], by simp [b6, b5, b4, b3, b2, b1]⟩
  · simp only [LoadSceneTextures, hi0, hi1, hi2, hi3, hi4, hi5, e1, e2, e3, e4, e5, e6,
      hbind, Option.bind_eq_bind, Option.some_bind, Option.pure_def, bind, pure]
  all_goals
    simp [slotTag, a6, a5, a4, a3, a2, a1, c5, c4, c3, c2, c1, h0, List.getElem?_set, hlen]

end SceneManager

namespace SceneManager

variable {F : Type}

/-- When the six files decode with 3 or 4 channels, no texture is loaded yet and the
shader manager is not null, `PrepareScene` returns, the count is 6, the slots 0 .. 5
carry the six tags in the order of the calls, and the six materials of
`DefineObjectMaterials` follow the materials defined before. -/
theorem PrepareScene_success [Field F] (s : SceneManager F) (sh : ShaderManager F)
    (stbi_load : String → Option Image) (glGenTextures : Nat → Nat) (gl : GLState)
    (h0 : s.m_loadedTextures = 0) (hsh : s.m_pShaderManager = some sh)
    (hload : ∀ f ∈ LoadSceneTextures.files,
      ∃ img, stbi_load f = some img ∧ (img.colorChannels = 3 ∨ img.colorChannels = 4)) :
    ∃ s1 gl1, s.PrepareScene stbi_load glGenTextures gl = some (s1, gl1) ∧
      s1.m_loadedTextures = 6 ∧
      s1.slotTag 0 = some "Ball" ∧ s1.slotTag 1 = some "Glass" ∧
      s1.slotTag 2 = some "BrownPlastic" ∧ s1.slotTag 3 = some "GreenScreen" ∧
      s1.slotTag 4 = some "Book" ∧ s1.slotTag 5 = some "RedTop" ∧
      s1.m_objectMaterials = s.m_objectMaterials ++ DefineObjectMaterials.materials := by
  obtain ⟨s6, gl1, hL, hc, t0, t1, t2, t3, t4, t5, hm, hp, -⟩ :=
    LoadSceneTextures_success s stbi_load glGenTextures gl h0 hload
  rw [hsh] at hp
  have hP : ∃ s1, s.PrepareScene stbi_load glGenTextures gl = some (s1, gl1) ∧
      s1.m_textureIDs = s6.m_textureIDs ∧ s1.m_loadedTextures = s6.m_loadedTextures ∧
      s1.m_objectMaterials = s6.m_objectMaterials ++ DefineObjectMaterials.materials := by
    simp only [PrepareScene, hL, SetupSceneLights, DefineObjectMaterials, hp,
      Option.bind_eq_bind, Option.some_bind, Option.pure_def, bind, pure]
    exact ⟨_, rfl, rfl, rfl, rfl⟩
  obtain ⟨s1, hP, ha, hn, hmat⟩ := hP
  have ht : ∀ i, s1.slotTag i = s6.slotTag i := fun i => by simp [slotTag, ha]
  refine ⟨s1, gl1, hP, by omega, ?_, ?_, ?_, ?_, ?_, ?_, by rw [hmat, hm]⟩
  all_goals rw [ht]; assumption

/-- C10: after `PrepareScene` on a scene manager with no texture loaded yet and a
shader manager, in which each of the six files of `LoadSceneTextures` decodes with 3
or 4 channels (so that every `CreateGLTexture` call succeeds), every texture tag that
a block of `RenderScene` passes to `SetShaderTexture` resolves through
`FindTextureSlot` to a slot between 0 and 5, and every material tag that a block
passes to `SetShaderMaterial` is the tag of one of the materials that
`DefineObjectMaterials` registered. -/
theorem C10_scene_tags_registered [Field F] (s : SceneManager F) (sh : ShaderManager F)
    (stbi_load : String → Option Image) (glGenTextures : Nat → Nat) (gl : GLState)
    (h0 : s.m_loadedTextures = 0) (hsh : s.m_pShaderManager = some sh)
    (hload : ∀ f ∈ LoadSceneTextures.files,
      ∃ img, stbi_load f = some img ∧ (img.colorChannels = 3 ∨ img.colorChannels = 4)) :
    ∃ s1 gl1, s.PrepareScene stbi_load glGenTextures gl = some (s1, gl1) ∧
      (∀ o ∈ (RenderScene.objects : List (SceneObject F)),
        ∃ k : Int, s1.FindTextureSlot o.textureTag = some k ∧ 0 ≤ k ∧ k ≤ 5) ∧
      (∀ o ∈ (RenderScene.objects : List (SceneObject F)),
        ∃ m ∈ (DefineObjectMaterials.materials : List (OBJECT_MATERIAL F)),
          m ∈ s1.m_objectMaterials ∧ m.tag = o.materialTag) := by
  obtain ⟨s1, gl1, hP, hc, t0, t1, t2, t3, t4, t5, hm⟩ :=
    PrepareScene_success s sh stbi_load glGenTextures gl h0 hsh hload
  have hlow : ∀ (k : Nat) (tag : String), k < 6 → s1.slotTag k = some tag →
      (∀ i, i < k → s1.slotTag i ≠ some tag) → s1.FindTextureSlot tag = some (k : Int) := by
    intro k tag hk hkt hno
    exact FindTextureSlot_hit s1 tag k ⟨by omega, hkt⟩ (fun i hi hreg => hno i hi hreg.2)
  have r0 : s1.FindTextureSlot "Ball" = some 0 :=
    hlow 0 _ (by omega) t0 (by intro i hi; omega)
  have r1 : s1.FindTextureSlot "Glass" = some 1 :=
    hlow 1 _ (by omega) t1 (by intro i hi; interval_cases i; simp [*])
  have r2 : s1.FindTextureSlot "BrownPlastic" = some 2 :=
    hlow 2 _ (by omega) t2 (by intro i hi; interval_cases i <;> simp [*])
  have r3 : s1.FindTextureSlot "GreenScreen" = some 3 :=
    hlow 3 _ (by omega) t3 (by intro i hi; interval_cases i <;> simp [*])
  have r4 : s1.FindTextureSlot "Book" = some 4 :=
    hlow 4 _ (by omega) t4 (by intro i hi; interval_cases i <;> simp [*])
  have r5 : s1.FindTextureSlot "RedTop" = some 5 :=
    hlow 5 _ (by omega) t5 (by intro i hi; interval_cases i <;> simp [*])
  refine ⟨s1, gl1, hP, ?_, ?_⟩
  · intro o ho
    simp only [RenderScene.objects, List.mem_cons, List.mem_singleton, List.not_mem_nil,
      or_false] at ho
    rcases ho with rfl | rfl | rfl | rfl | rfl | rfl | rfl | rfl
    · exact ⟨1, r1, by norm_num, by norm_num⟩
    · exact ⟨2, r2, by norm_num, by norm_num⟩
    · exact ⟨2, r2, by norm_num, by norm_num⟩
    · exact ⟨3, r3, by norm_num, by norm_num⟩
    · exact ⟨0, r0, by norm_num, by norm_num⟩
    · exact ⟨4, r4, by norm_num, by norm_num⟩
    · exact ⟨2, r2, by norm_num, by norm_num⟩
    · exact ⟨5, r5, by norm_num, by norm_num⟩
  · intro o ho
    have hmem : ∀ m ∈ (DefineObjectMaterials.materials : List (OBJECT_MATERIAL F)),
        m ∈ s1.m_objectMaterials := fun m h => by rw [hm]; exact List.mem_append_right _ h
    have hget : ∀ (i : Nat) (m : OBJECT_MATERIAL F),
        (DefineObjectMaterials.materials : List (OBJECT_MATERIAL F))[i]? = some m →
        m ∈ (DefineObjectMaterials.materials : List (OBJECT_MATERIAL F)) :=
      fun i m h => List.getElem?_mem h
    simp only [RenderScene.objects, List.mem_cons, List.mem_singleton, List.not_mem_nil,
      or_false] at ho
    rcases ho with rfl | rfl | rfl | rfl | rfl | rfl | rfl | rfl
    · exact ⟨_, hget 0 _ rfl, hmem _ (hget 0 _ rfl), rfl⟩
    · exact ⟨_, hget 2 _ rfl, hmem _ (hget 2 _ rfl), rfl⟩
    · exact ⟨_, hget 2 _ rfl, hmem _ (hget 2 _ rfl), rfl⟩
    · exact ⟨_, hget 4 _ rfl, hmem _ (hget 4 _ rfl), rfl⟩
    · exact ⟨_, hget 1 _ rfl, hmem _ (hget 1 _ rfl), rfl⟩
    · exact ⟨_, hget 5 _ rfl, hmem _ (hget 5 _ rfl), rfl⟩
    · exact ⟨_, hget 2 _ rfl, hmem _ (hget 2 _ rfl), rfl⟩
    · exact ⟨_, hget 2 _ rfl, hmem _ (hget 2 _ rfl), rfl⟩

/-- C10 at a concrete input: a fresh scene manager with a shader manager, every file
decoding to a 3-channel image, texture names 1, 2, 3, ... -/
theorem C10_scene_tags_registered_witness :
    ∃ s1 gl1,
      (fresh (some ⟨fun _ => none⟩) ⟨0, ""⟩ : SceneManager ℚ).PrepareScene
          (fun _ => some ⟨64, 64, 3⟩) (fun k => k + 1) ⟨0, fun _ => 0⟩ = some (s1, gl1) ∧
      (∀ o ∈ (RenderScene.objects : List (SceneObject ℚ)),
        ∃ k : Int, s1.FindTextureSlot o.textureTag = some k ∧ 0 ≤ k ∧ k ≤ 5) ∧
      (∀ o ∈ (RenderScene.objects : List (SceneObject ℚ)),
        ∃ m ∈ (DefineObjectMaterials.materials : List (OBJECT_MATERIAL ℚ)),
          m ∈ s1.m_objectMaterials ∧ m.tag = o.materialTag) :=
  C10_scene_tags_registered (fresh (some ⟨fun _ => none⟩) ⟨0, ""⟩) ⟨fun _ => none⟩
    (fun _ => some ⟨64, 64, 3⟩) (fun k => k + 1) ⟨0, fun _ => 0⟩ rfl rfl
    (fun _ _ => ⟨_, rfl, Or.inl rfl⟩)

end SceneManager

namespace SceneManager

variable {F : Type}

/-- C11: for every material list, tag and output parameter, `FindMaterial` returns,
and the flag it returns is false exactly when the list is empty; so it is true for a
non-empty list also when no material carries the tag. -/
theorem C11_flag_false_iff_empty (s : SceneManager F) (tag : String)
    (material : OBJECT_MATERIAL F) :
    ∃ flag out, s.FindMaterial tag material = some (flag, out) ∧
      (flag = false ↔ s.m_objectMaterials = []) := by
  by_cases hne : s.m_objectMaterials = []
  · refine ⟨false, material, ?_, by simp [hne]⟩
    simp [FindMaterial, hne]
  · obtain ⟨out, h⟩ := FindMaterial_nonempty s tag material hne
    exact ⟨true, out, h, by simp [hne]⟩

/-- C12, the code at a failing input: with the six materials of
`DefineObjectMaterials` registered and no uniform stored yet, `SetShaderMaterial` of
the unregistered tag "Glass" does write the five material uniforms, with whatever the
local `material` held (here the values 1 .. 11). -/
theorem C12_missing_tag_writes_uniforms :
    ∃ s1 sh1, sceneWithShader.SetShaderMaterial OBJECT_MATERIAL.stale "Glass" = some s1 ∧
      s1.m_pShaderManager = some sh1 ∧
      sh1.uniforms "material.ambientColor" = some (.vec3Value ⟨1, 2, 3⟩) ∧
      sh1.uniforms "material.ambientStrength" = some (.floatValue 4) ∧
      sh1.uniforms "material.diffuseColor" = some (.vec3Value ⟨5, 6, 7⟩) ∧
      sh1.uniforms "material.specularColor" = some (.vec3Value ⟨8, 9, 10⟩) ∧
      sh1.uniforms "material.shininess" = some (.floatValue 11) ∧
      sceneWithShader.m_pShaderManager = some ⟨fun _ => none⟩ :=
  ⟨_, _, rfl, rfl, rfl, rfl, rfl, rfl, rfl, rfl⟩

/-- C13: after a `CreateGLTexture` that returned true on a registry with count `n`,
the count is `n + 1`, slot `n` holds the new entry, every slot below `n` is as before,
and every tag that `FindTextureSlot` resolved to a slot `k >= 0` before the call still
resolves to `k`; the new tag may be one that was registered already. -/
theorem C13_load_only_appends (s s1 : SceneManager F) (image : Option Image)
    (textureID : Nat) (tag : String)
    (h : s.CreateGLTexture image textureID tag = some (true, s1)) :
    s1.m_loadedTextures = s.m_loadedTextures + 1 ∧
      s1.m_textureIDs[s.m_loadedTextures]? = some ⟨textureID, tag⟩ ∧
      (∀ i, i < s.m_loadedTextures → s1.m_textureIDs[i]? = s.m_textureIDs[i]?) ∧
      (∀ (t : String) (k : Int), 0 ≤ k → s.FindTextureSlot t = some k →
        s1.FindTextureSlot t = some k) := by
  obtain ⟨hlt, hcnt, harr, -⟩ := CreateGLTexture_eq_true s s1 image textureID tag h
  have hlen : s.m_loadedTextures < s.m_textureIDs.length := by rw [s.size_eq]; exact hlt
  refine ⟨hcnt, ?_, ?_, ?_⟩
  · rw [harr, List.getElem?_set_self hlen]
  · intro i hi
    rw [harr, List.getElem?_set_ne (by omega)]
  · intro t k hk hfind
    obtain ⟨j, rfl, hj, hmin⟩ := FindTextureSlot_eq_some_nonneg s t k hfind hk
    have hjn : j < s.m_loadedTextures := hj.1
    apply FindTextureSlot_hit
    · exact ⟨by omega, by rw [slotTag_set_ne s s1 _ j (by omega) harr]; exact hj.2⟩
    · intro i hi hreg
      apply hmin i hi
      refine ⟨by omega, ?_⟩
      rw [← slotTag_set_ne s s1 _ i (by omega) harr]
      exact hreg.2

/-- C13 at a concrete input: loading the tag "Ball" a second time into the registry
that holds "Ball" in slot 0 puts the new entry in slot 1, leaves slot 0 as it was,
and "Ball" still resolves to slot 0. -/
theorem C13_load_only_appends_witness :
    ∃ s1, oneBall.CreateGLTexture (some ⟨64, 64, 3⟩) 8 "Ball" = some (true, s1) ∧
      s1.m_loadedTextures = 2 ∧ s1.m_textureIDs[1]? = some ⟨8, "Ball"⟩ ∧
      s1.m_textureIDs[0]? = some ⟨7, "Ball"⟩ ∧ s1.FindTextureSlot "Ball" = some 0 := by
  obtain ⟨h1, h2, h3, h4⟩ :=
    C13_load_only_appends oneBall _ (some ⟨64, 64, 3⟩) 8 "Ball" rfl
  exact ⟨_, rfl, h1, h2, (h3 0 (by decide)).trans rfl, h4 "Ball" 0 (by decide) (by decide)⟩

end SceneManager
